import Mathlib

/-!
Verification of the jfleet PXE network-boot server
(`src/network-boot-server.py`) against its natural-language specification.

The Python source is shallowly embedded: the DHCP responder's mutable state
(`lease_pool`, `next_ip`) becomes an explicit `DHCPState`, packet bytes become
`List Nat`, the packet parser's possible `IndexError` becomes `Except Unit`,
and the image-extraction / shutdown routines become explicit transition
functions over resource-state records driven by a scenario describing the
outcomes of the external commands they invoke.
-/

namespace JFleet

/-- A byte of a datagram.  Python `bytes` elements are naturals below 256;
the bound is not needed by any proof and is left implicit. -/
abbrev Byte := Nat

/-- A dotted-quad IPv4 address, the result of `socket.inet_aton` /
argument of `socket.inet_ntoa` viewed as its four bytes. -/
structure IPv4 where
  b0 : Nat
  b1 : Nat
  b2 : Nat
  b3 : Nat
deriving DecidableEq, Repr

/-- `DHCPServer._ip_to_int`: big-endian 32-bit integer of a dotted quad
(`struct.unpack("!I", socket.inet_aton(ip))`). -/
def ipToInt (ip : IPv4) : Nat :=
  ip.b0 * 2 ^ 24 + ip.b1 * 2 ^ 16 + ip.b2 * 2 ^ 8 + ip.b3

/-- `DHCPServer._int_to_ip`: dotted quad of a 32-bit integer
(`socket.inet_ntoa(struct.pack("!I", num))`). -/
def intToIp (n : Nat) : IPv4 :=
  ⟨n / 2 ^ 24 % 256, n / 2 ^ 16 % 256, n / 2 ^ 8 % 256, n % 256⟩

/-- The four bytes `socket.inet_aton` produces for an address. -/
def ipBytes (ip : IPv4) : List Byte :=
  [ip.b0, ip.b1, ip.b2, ip.b3]

/-- Module-level constant `SERVER_IP = "172.16.172.1"`. -/
def SERVER_IP : IPv4 := ⟨172, 16, 172, 1⟩

/-- Module-level constant `DHCP_RANGE_START = "172.16.172.100"`. -/
def DHCP_RANGE_START : IPv4 := ⟨172, 16, 172, 100⟩

/-- Module-level constant `DHCP_RANGE_END = "172.16.172.200"`. -/
def DHCP_RANGE_END : IPv4 := ⟨172, 16, 172, 200⟩

/-- Module-level constant `NETMASK = "255.255.255.0"`. -/
def NETMASK : IPv4 := ⟨255, 255, 255, 0⟩

/-- The state of `DHCPServer` relevant to address allocation and reply
construction: constructor arguments plus the mutable `lease_pool`
(a Python dict from 6-byte MAC to the allocated address, insertion-ordered,
modelled as an association list appended on insert) and the `next_ip`
cursor. -/
structure DHCPState where
  server_ip : IPv4
  range_start : IPv4
  range_end : IPv4
  netmask : IPv4
  lease_pool : List (List Byte × IPv4)
  next_ip : Nat
deriving DecidableEq, Repr

/-- Dictionary lookup `self.lease_pool[mac]` / `mac in self.lease_pool`:
first (and only, keys are unique) binding of the key. -/
def lookupPool : List (List Byte × IPv4) → List Byte → Option IPv4
  | [], _ => none
  | (k, v) :: rest, m => if k = m then some v else lookupPool rest m

/-- `DHCPServer._allocate_ip`: sticky allocation.  A MAC already in the
lease pool gets its recorded address back with no state change; a fresh MAC
gets the address at the cursor, is recorded, and the cursor advances,
wrapping to `range_start` when it passes `range_end`. -/
def allocate_ip (s : DHCPState) (mac : List Byte) : IPv4 × DHCPState :=
  match lookupPool s.lease_pool mac with
  | some ip => (ip, s)
  | none =>
    let ip := intToIp s.next_ip
    let pool := s.lease_pool ++ [(mac, ip)]
    let n := s.next_ip + 1
    let n' := if ipToInt s.range_end < n then ipToInt s.range_start else n
    (ip, { s with lease_pool := pool, next_ip := n' })

/-- The `DHCPServer` as constructed by `PXEBootServer.start_dhcp_server`:
empty lease pool, cursor at the integer value of the range start. -/
def initialState : DHCPState :=
  { server_ip := SERVER_IP
    range_start := DHCP_RANGE_START
    range_end := DHCP_RANGE_END
    netmask := NETMASK
    lease_pool := []
    next_ip := ipToInt DHCP_RANGE_START }

/-! ### Packet parsing (`DHCPServer._parse_dhcp_packet`) -/

/-- The option fields the parser's `while` loop accumulates
(`msg_type`, `vendor_class`, `requested_ip`, `client_arch`), all
initialised to `None`. -/
structure OptFields where
  msg_type : Option Byte
  vendor_class : Option (List Byte)
  requested_ip : Option IPv4
  client_arch : Option Nat
deriving DecidableEq, Repr

/-- The dict `_parse_dhcp_packet` returns: the 4-byte transaction id
`data[4:8]`, the 6-byte MAC `data[28:34]`, and the accumulated option
fields. -/
structure ParsedPacket where
  transaction_id : List Byte
  client_mac : List Byte
  msg_type : Option Byte
  vendor_class : Option (List Byte)
  requested_ip : Option IPv4
  client_arch : Option Nat
deriving DecidableEq, Repr

/-- One iteration's option-specific update.  `Except.error ()` models a
Python exception escaping the parser: `data[i+2]` out of range
(IndexError) for option 53 or 93, and `socket.inet_ntoa` on a slice
shorter than 4 bytes (OSError) for option 50.  Option 60's slice and the
skip of unknown codes use Python slicing, which never raises. -/
def updateOptField (data : List Byte) (i : Nat) (opt optLen : Byte)
    (f : OptFields) : Except Unit OptFields :=
  if opt = 53 then
    match data.get? (i + 2) with
    | none => .error ()
    | some b => .ok { f with msg_type := some b }
  else if opt = 60 then
    .ok { f with vendor_class := some ((data.drop (i + 2)).take optLen) }
  else if opt = 50 then
    match (data.drop (i + 2)).take 4 with
    | [a, b, c, d] => .ok { f with requested_ip := some ⟨a, b, c, d⟩ }
    | _ => .error ()
  else if opt = 93 then
    if 2 ≤ optLen then
      match data.get? (i + 2), data.get? (i + 3) with
      | some a, some b => .ok { f with client_arch := some ((a <<< 8) ||| b) }
      | _, _ => .error ()
    else .ok f
  else .ok f

/-- The parser's option loop (`while i < len(data)` at offset 240):
stops at end-code 255, advances one byte on pad-code 0, otherwise reads
the length byte `data[i+1]` (an `IndexError`, modelled as `.error`, when
the packet is truncated there), dispatches on the code, and advances by
`2 + option_len`.  The first argument is an iteration bound: the index
strictly increases every iteration and the loop runs only while
`i < data.length`, so any bound of at least `data.length - i` iterations
is never reached (`parseOptLoop_fuel` below); the caller passes
`data.length`. -/
def parseOptLoop (data : List Byte) : Nat → Nat → OptFields → Except Unit OptFields
  | 0, _, f => .ok f
  | fuel + 1, i, f =>
    if h : i < data.length then
      let opt := data.get ⟨i, h⟩
      if opt = 255 then .ok f
      else if opt = 0 then parseOptLoop data fuel (i + 1) f
      else
        match data.get? (i + 1) with
        | none => .error ()
        | some optLen =>
          match updateOptField data i opt optLen f with
          | .error e => .error e
          | .ok f' => parseOptLoop data fuel (i + 2 + optLen) f'
    else .ok f

/-- `DHCPServer._parse_dhcp_packet`: `Except.error` is a raised exception
(caught by the receive loop), `.ok none` is the explicit `return None` on
a short packet or wrong magic cookie, `.ok (some _)` is a parsed packet. -/
def parse_dhcp_packet (data : List Byte) : Except Unit (Option ParsedPacket) :=
  if data.length < 240 then .ok none
  else if (data.drop 236).take 4 ≠ [99, 130, 83, 99] then .ok none
  else
    match parseOptLoop data data.length 240 ⟨none, none, none, none⟩ with
    | .error e => .error e
    | .ok f =>
      .ok (some
        { transaction_id := (data.drop 4).take 4
          client_mac := (data.drop 28).take 6
          msg_type := f.msg_type
          vendor_class := f.vendor_class
          requested_ip := f.requested_ip
          client_arch := f.client_arch })

/-! ### Classification and reply construction -/

/-- ASCII bytes of a string (`str.encode('ascii')`, all characters used
are 7-bit). -/
def asciiBytes (s : String) : List Byte :=
  s.toList.map Char.toNat

/-- `bytes.decode('ascii', errors='ignore')`: keeps the 7-bit bytes,
drops the rest; the result is kept as its byte sequence. -/
def decodeAsciiIgnore (bs : List Byte) : List Byte :=
  bs.filter (fun b => b < 128)

/-- Python's substring test `needle in hay`. -/
def hasSubstr (needle : List Byte) : List Byte → Bool
  | [] => needle.isEmpty
  | b :: bs => needle.isPrefixOf (b :: bs) || hasSubstr needle bs

/-- The fixed PXE vendor-class marker `'PXEClient'`. -/
def pxeMarker : List Byte := asciiBytes "PXEClient"

/-- `DHCPServer._get_bootfile_for_arch`, mirroring the Python
`if`/`elif` chain (`None` falls through the first two tests since
`None in (7, 9)` and `None == 6` are false). -/
def get_bootfile_for_arch (arch_code : Option Nat) : String :=
  if arch_code = some 0x0007 ∨ arch_code = some 0x0009 then "grubx64.efi"
  else if arch_code = some 0x0006 then "grubia32.efi"
  else if arch_code = some 0x0000 ∨ arch_code = none then "lpxelinux.0"
  else "lpxelinux.0"

/-- Dotted-decimal text of an address, as Python holds `self.server_ip`
(used byte-for-byte by option 66). -/
def ipStr (ip : IPv4) : String :=
  toString ip.b0 ++ "." ++ toString ip.b1 ++ "." ++ toString ip.b2
    ++ "." ++ toString ip.b3

/-- The 128-byte boot-filename field at offset 108: the name
null-terminated, zero-padded (`packet[108:108+len] = name + NUL`,
`packet[108+len:236] = zeros`). -/
def bootfileField (bootfile : String) : List Byte :=
  let bfb := asciiBytes bootfile ++ [0]
  bfb ++ List.replicate (128 - bfb.length) 0

/-- The option area `_build_dhcp_packet` appends after the magic cookie:
message type, server identifier, lease time, subnet mask, router, DNS,
PXE vendor option 43 (discovery-control byte `0x0A`), TFTP server name
(dotted-decimal text), boot-filename option 67, end marker 255. -/
def dhcpOptions (server_ip netmask : IPv4) (msg_type : Byte)
    (bootfile : String) : List Byte :=
  [53, 1, msg_type]
    ++ ([54, 4] ++ ipBytes server_ip)
    ++ [51, 4, 0, 0, 14, 16]
    ++ ([1, 4] ++ ipBytes netmask)
    ++ ([3, 4] ++ ipBytes server_ip)
    ++ ([6, 4] ++ ipBytes server_ip)
    ++ [43, 3, 6, 1, 10]
    ++ ([66, (asciiBytes (ipStr server_ip)).length] ++ asciiBytes (ipStr server_ip))
    ++ ([67, (asciiBytes bootfile).length] ++ asciiBytes bootfile)
    ++ [255]

/-- `DHCPServer._build_dhcp_packet`: fixed 240-byte BOOTP header —
reply opcode, Ethernet type/length, zero hops, echoed transaction id,
zero seconds/flags/ciaddr, offered address (yiaddr) at offset 16,
server address (siaddr), zero giaddr, echoed MAC plus padding, empty
sname, boot-filename field at 108, magic cookie at 236 — followed by the
options.  (The callers pass the parsed 4-byte transaction id and 6-byte
MAC, matching the header slots.) -/
def build_dhcp_packet (server_ip netmask : IPv4)
    (transaction_id client_mac : List Byte) (client_ip : IPv4)
    (msg_type : Byte) (bootfile : String) : List Byte :=
  [2, 1, 6, 0]
    ++ transaction_id
    ++ [0, 0]
    ++ [0, 0]
    ++ [0, 0, 0, 0]
    ++ ipBytes client_ip
    ++ ipBytes server_ip
    ++ [0, 0, 0, 0]
    ++ client_mac ++ List.replicate 10 0
    ++ List.replicate 64 0
    ++ bootfileField bootfile
    ++ [99, 130, 83, 99]
    ++ dhcpOptions server_ip netmask msg_type bootfile

/-! ### The receive-loop body (`DHCPServer.start`) -/

/-- `DHCPDISCOVER = 1`. -/
def DHCPDISCOVER : Byte := 1

/-- `DHCPOFFER = 2`. -/
def DHCPOFFER : Byte := 2

/-- `DHCPREQUEST = 3`. -/
def DHCPREQUEST : Byte := 3

/-- `DHCPACK = 5`. -/
def DHCPACK : Byte := 5

/-- The decoded vendor string of a parsed packet (empty when absent). -/
def vendorStrOf (p : ParsedPacket) : List Byte :=
  match p.vendor_class with
  | some vb => decodeAsciiIgnore vb
  | none => []

/-- `vendor and 'PXEClient' in vendor` as a boolean. -/
def isPxe (p : ParsedPacket) : Bool :=
  !(vendorStrOf p).isEmpty && hasSubstr pxeMarker (vendorStrOf p)

/-- Reconstruct the quad of a 4-byte slice (`socket.inet_ntoa`); the
slices fed to it here always have length 4. -/
def quadOf (l : List Byte) : IPv4 :=
  match l with
  | [a, b, c, d] => ⟨a, b, c, d⟩
  | _ => ⟨0, 0, 0, 0⟩

/-- One iteration of the `DHCPServer.start` receive loop on datagram
`data`: the broadcast reply (if any) and the successor state.  A raised
exception anywhere is caught by the loop's blanket handler (logged, no
reply, state untouched); a `None` parse is skipped by `continue`.
On DISCOVER, a non-zero ciaddr (`data[12:16]`) selects the ProxyDHCP
path, which echoes that address and does not allocate; otherwise a fresh
address is allocated.  On REQUEST an address is always allocated.  Other
or missing message types are ignored. -/
def handle_packet (s : DHCPState) (data : List Byte) :
    Option (List Byte) × DHCPState :=
  match parse_dhcp_packet data with
  | .error _ => (none, s)
  | .ok none => (none, s)
  | .ok (some p) =>
    if p.msg_type = some DHCPDISCOVER then
      let bootfile : String :=
        if isPxe p then get_bootfile_for_arch p.client_arch else ""
      let ciaddr := (data.drop 12).take 4
      if ciaddr ≠ [0, 0, 0, 0] then
        (some (build_dhcp_packet s.server_ip s.netmask p.transaction_id
          p.client_mac (quadOf ciaddr) DHCPOFFER bootfile), s)
      else
        let r := allocate_ip s p.client_mac
        (some (build_dhcp_packet s.server_ip s.netmask p.transaction_id
          p.client_mac r.1 DHCPOFFER bootfile), r.2)
    else if p.msg_type = some DHCPREQUEST then
      let r := allocate_ip s p.client_mac
      let bootfile : String :=
        if isPxe p then get_bootfile_for_arch p.client_arch else ""
      (some (build_dhcp_packet s.server_ip s.netmask p.transaction_id
        p.client_mac r.1 DHCPACK bootfile), r.2)
    else (none, s)

/-! ### Image-extraction pipeline (`PXEBootServer.extract_kernel_initrd`) -/

/-- The externally visible resource state the extraction touches: the
NBD attachment of the image, the scratch mount, LVM volume-group
activation, and the scratch mount-point directory. -/
structure Res where
  attached : Bool
  mounted : Bool
  lvm_active : Bool
  mountpoint : Bool
deriving DecidableEq, Repr

/-- No attachment, no mount, no active volume group, no mount point. -/
def cleanRes : Res := ⟨false, false, false, false⟩

/-- A mount candidate (a raw partition or logical volume) as the probe
loop sees it: whether its device path exists, whether `blkid` reports
swap, whether the read-only mount succeeds, and whether it exposes
`/boot` or a top-level `vmlinuz-*` file. -/
structure PartCand where
  ex : Bool
  fs_swap : Bool
  mount_ok : Bool
  has_boot : Bool
deriving DecidableEq, Repr

/-- Outcomes of the external commands `extract_kernel_initrd` runs, in
program order.  `check=True` commands raise on failure; `check=False`
commands cannot.  `vg_deactivate_ok` covers the best-effort
`vgchange -an` (its exit status is ignored; the flag records whether the
deactivation actually took effect). -/
structure Scenario where
  modprobe_ok : Bool
  connect_ok : Bool
  fdisk_parts : List PartCand
  probe_parts : List PartCand
  lvs_found : List PartCand
  kernel_found : Bool
  cp_kernel_ok : Bool
  initrd_found : Bool
  cp_initrd_ok : Bool
  final_umount_ok : Bool
  vg_deactivate_ok : Bool
  final_disconnect_ok : Bool
deriving DecidableEq, Repr

/-- The exceptions `extract_kernel_initrd` can raise: a failing
`check=True` subprocess, the two explicit `raise Exception(...)` sites,
and the two `FileNotFoundError` sites. -/
inductive ExtractErr where
  | cmdFailed (cmd : String)
  | noPartitions
  | noBootPartition
  | kernelNotFound
  | initrdNotFound
deriving DecidableEq, Repr

/-- The `for partition in partitions` probe loop: skip a candidate whose
path is missing, whose filesystem is swap, or whose mount fails; accept
the first mounted candidate exposing boot files (leaving it mounted);
unmount (`check=False`, modelled effective) and continue otherwise. -/
def mountLoop : List PartCand → Res → Option PartCand × Res
  | [], r => (none, r)
  | c :: rest, r =>
    if !c.ex then mountLoop rest r
    else if c.fs_swap then mountLoop rest r
    else if !c.mount_ok then mountLoop rest r
    else
      let r' := { r with mounted := true }
      if c.has_boot then (some c, r')
      else mountLoop rest { r' with mounted := false }

/-- The `except` handler's best-effort cleanup: `umount` (`check=False`,
modelled effective), `vgchange -an` (effect recorded by
`vg_deactivate_ok`), `qemu-nbd --disconnect` (`check=False`, modelled
effective), and `rmdir` wrapped in `try/except pass`. -/
def exn_cleanup (sc : Scenario) (r : Res) : Res :=
  { r with
    mounted := false
    lvm_active := if sc.vg_deactivate_ok then false else r.lvm_active
    attached := false
    mountpoint := false }

/-- The `try` body of `extract_kernel_initrd`: result of the body and the
resource state at the point the body returned or raised. -/
def extractBody (sc : Scenario) : Except ExtractErr Unit × Res :=
  if !sc.modprobe_ok then (.error (.cmdFailed "modprobe"), cleanRes)
  else if !sc.connect_ok then (.error (.cmdFailed "qemu-nbd-connect"), cleanRes)
  else
    let candidates :=
      if sc.fdisk_parts.isEmpty then sc.probe_parts.filter (·.ex)
      else sc.fdisk_parts
    if candidates.isEmpty then
      (.error .noPartitions, ⟨true, false, false, false⟩)
    else
      let lvm_detected := !sc.lvs_found.isEmpty
      let r3 : Res := ⟨true, false, lvm_detected, true⟩
      match mountLoop (sc.lvs_found ++ candidates) r3 with
      | (none, r4) => (.error .noBootPartition, r4)
      | (some _, r4) =>
        if !sc.kernel_found then (.error .kernelNotFound, r4)
        else if !sc.cp_kernel_ok then (.error (.cmdFailed "cp-kernel"), r4)
        else if !sc.initrd_found then (.error .initrdNotFound, r4)
        else if !sc.cp_initrd_ok then (.error (.cmdFailed "cp-initrd"), r4)
        else if !sc.final_umount_ok then (.error (.cmdFailed "umount"), r4)
        else
          let r5 := { r4 with mounted := false }
          let r6 :=
            if lvm_detected then
              { r5 with lvm_active := if sc.vg_deactivate_ok then false else r5.lvm_active }
            else r5
          if !sc.final_disconnect_ok then
            (.error (.cmdFailed "qemu-nbd-disconnect"), r6)
          else
            (.ok (), { r6 with attached := false, mountpoint := false })

/-- `PXEBootServer.extract_kernel_initrd`: run the body; on any raised
exception run the handler's best-effort cleanup and re-raise. -/
def extract_kernel_initrd (sc : Scenario) : Except ExtractErr Unit × Res :=
  match extractBody sc with
  | (.ok u, r) => (.ok u, r)
  | (.error e, r) => (.error e, exn_cleanup sc r)

/-! ### Shutdown sequencing (`PXEBootServer.stop`) -/

/-- The services `PXEBootServer.stop` touches: whether the DHCP and HTTP
servers were ever created (the `if self.dhcp_server:` / `if
self.http_server:` guards) and the running state of each service,
including the `qemu-nbd` export processes. -/
structure Services where
  dhcp_present : Bool
  http_present : Bool
  dhcp_running : Bool
  http_running : Bool
  nbd_running : Bool
deriving DecidableEq, Repr

/-- Whether each stop call returns normally or raises
(`sock.close()` / `shutdown()` are not wrapped in any handler;
`pkill` runs with `check=False` and cannot raise). -/
structure StopScenario where
  dhcp_stop_ok : Bool
  http_stop_ok : Bool
deriving DecidableEq, Repr

/-- The three stop steps, in source order. -/
inductive StopAction where
  | stopDhcp
  | stopHttp
  | killNbd
deriving DecidableEq, Repr

/-- `PXEBootServer.stop`: stop the DHCP responder, then shut down the
HTTP server, then `pkill` the NBD export.  The steps run in straight-line
sequence with no per-step exception handler, so a raising step aborts the
function (first component `true`) and the remaining steps never run.
`DHCPServer.stop` clears `self.running` before the `close()` call that
may raise.  The returned list records the steps that were attempted. -/
def pxe_stop (sv : Services) (sc : StopScenario) :
    Bool × Services × List StopAction :=
  if sv.dhcp_present then
    let sv1 := { sv with dhcp_running := false }
    if !sc.dhcp_stop_ok then (true, sv1, [StopAction.stopDhcp])
    else pxe_stop_http sv1 sc [StopAction.stopDhcp]
  else pxe_stop_http sv sc []
where
  /-- The HTTP-shutdown step and everything after it. -/
  pxe_stop_http (sv : Services) (sc : StopScenario) (tr : List StopAction) :
      Bool × Services × List StopAction :=
    if sv.http_present then
      if !sc.http_stop_ok then (true, sv, tr ++ [StopAction.stopHttp])
      else pxe_stop_nbd { sv with http_running := false }
        (tr ++ [StopAction.stopHttp])
    else pxe_stop_nbd sv tr
  /-- The final NBD `pkill` step (`check=False`, never raises). -/
  pxe_stop_nbd (sv : Services) (tr : List StopAction) :
      Bool × Services × List StopAction :=
    (false, { sv with nbd_running := false }, tr ++ [StopAction.killNbd])

/-! ### Concrete states, packets and scenarios used by the theorems -/

/-- A state with one granted lease, for exercising `alloc_sticky`. -/
def stickyWitnessState : DHCPState :=
  { initialState with
    lease_pool := [([0, 1, 2, 3, 4, 5], ⟨172, 16, 172, 100⟩)]
    next_ip := ipToInt DHCP_RANGE_START + 1 }

/-- The allocation-cursor invariant: `next_ip` lies in the closed range
`[range_start, range_end]` (as 32-bit integers). -/
def cursorInRange (s : DHCPState) : Prop :=
  ipToInt s.range_start ≤ s.next_ip ∧ s.next_ip ≤ ipToInt s.range_end

/-- Every leased address was produced from a cursor value inside the
range. -/
def poolInRange (s : DHCPState) : Prop :=
  ∀ kv ∈ s.lease_pool, ∃ n, ipToInt s.range_start ≤ n ∧
    n ≤ ipToInt s.range_end ∧ kv.2 = intToIp n

/-- A tiny configured range for exercising `alloc_in_range`: the cursor
sits at the range end, so the next fresh allocation wraps. -/
def rangeWitnessState : DHCPState :=
  { server_ip := SERVER_IP
    range_start := ⟨0, 0, 0, 10⟩
    range_end := ⟨0, 0, 0, 12⟩
    netmask := NETMASK
    lease_pool := []
    next_ip := 12 }

/-- The i-th test MAC. -/
def macOf (i : Nat) : List Byte := [0, 0, 0, 0, 0, i]

/-- Fold a sequence of allocations through the server state. -/
def allocSeq (s : DHCPState) (macs : List (List Byte)) : DHCPState :=
  macs.foldl (fun st m => (allocate_ip st m).2) s

/-- The state after 101 distinct MACs exhaust the configured pool
`172.16.172.100 – 172.16.172.200`. -/
def wrappedState : DHCPState :=
  allocSeq initialState ((List.range 101).map macOf)

/-- A 240-byte header with the given ciaddr (offset 12) and MAC
(offset 28), ending in the magic cookie, ready for appended options. -/
def mkHeader (ciaddr mac : List Byte) : List Byte :=
  List.replicate 12 0 ++ ciaddr ++ List.replicate 12 0 ++ mac
    ++ List.replicate 202 0 ++ [99, 130, 83, 99]

/-- A REQUEST (option 53 = 3) whose ciaddr is the non-zero `10.0.0.5`. -/
def c3pkt : List Byte :=
  mkHeader [10, 0, 0, 5] [170, 187, 204, 221, 238, 1] ++ [53, 1, 3, 255]

/-- A DISCOVER with the same non-zero ciaddr, for the C3 witness. -/
def c3wpkt : List Byte :=
  mkHeader [10, 0, 0, 5] [170, 187, 204, 221, 238, 1] ++ [53, 1, 1, 255]

/-- A DISCOVER with vendor class `PXEClient` and architecture code
`0x0009`. -/
def c4wpkt : List Byte :=
  mkHeader [0, 0, 0, 0] [170, 187, 204, 221, 238, 2]
    ++ ([53, 1, 1] ++ ([60, 9] ++ asciiBytes "PXEClient")
      ++ [93, 2, 0, 9] ++ [255])

/-- A DISCOVER with no vendor class and no architecture option. -/
def c4pkt : List Byte :=
  mkHeader [0, 0, 0, 0] [170, 187, 204, 221, 238, 3] ++ [53, 1, 1, 255]

/-- A 241-byte packet with a valid cookie whose single option byte is a
code with no length byte following. -/
def c8pkt : List Byte :=
  List.replicate 236 0 ++ [99, 130, 83, 99] ++ [53]

/-- A valid-cookie packet whose option area is a pad byte then the end
code. -/
def padPkt : List Byte :=
  List.replicate 236 0 ++ [99, 130, 83, 99] ++ [0, 255]

/-- A fully healthy candidate partition. -/
def goodPart : PartCand :=
  { ex := true, fs_swap := false, mount_ok := true, has_boot := true }

/-- An image with one good partition but no kernel on it. -/
def scNoKernel : Scenario :=
  { modprobe_ok := true, connect_ok := true, fdisk_parts := [goodPart],
    probe_parts := [], lvs_found := [], kernel_found := false,
    cp_kernel_ok := true, initrd_found := true, cp_initrd_ok := true,
    final_umount_ok := true, vg_deactivate_ok := true,
    final_disconnect_ok := true }

/-- Like `scNoKernel` but with a kernel and initrd present and a failing
final unmount. -/
def scUmountFail : Scenario :=
  { modprobe_ok := true, connect_ok := true, fdisk_parts := [goodPart],
    probe_parts := [], lvs_found := [], kernel_found := true,
    cp_kernel_ok := true, initrd_found := true, cp_initrd_ok := true,
    final_umount_ok := false, vg_deactivate_ok := true,
    final_disconnect_ok := true }

/-- A scenario whose boot partition is a logical volume and whose
best-effort `vgchange -an` fails. -/
def scVgFail : Scenario :=
  { modprobe_ok := true, connect_ok := true, fdisk_parts := [goodPart],
    probe_parts := [], lvs_found := [goodPart], kernel_found := true,
    cp_kernel_ok := true, initrd_found := true, cp_initrd_ok := true,
    final_umount_ok := true, vg_deactivate_ok := false,
    final_disconnect_ok := true }

/-- A state in which all four services are up. -/
def svAll : Services :=
  { dhcp_present := true, http_present := true, dhcp_running := true,
    http_running := true, nbd_running := true }

/-! ## Lemmas about the lease pool -/

theorem lookupPool_append_of_some {l : List (List Byte × IPv4)}
    {k : List Byte} {v : IPv4} (h : lookupPool l k = some v)
    (l₂ : List (List Byte × IPv4)) : lookupPool (l ++ l₂) k = some v := by
  induction l with
  | nil => simp [lookupPool] at h
  | cons a rest ih =>
    obtain ⟨ka, va⟩ := a
    by_cases hk : ka = k
    · simpa [lookupPool, hk] using h
    · rw [List.cons_append, lookupPool, if_neg hk]
      rw [lookupPool, if_neg hk] at h
      exact ih h

theorem lookupPool_mem {l : List (List Byte × IPv4)} {k : List Byte}
    {v : IPv4} (h : lookupPool l k = some v) : (k, v) ∈ l := by
  induction l with
  | nil => simp [lookupPool] at h
  | cons a rest ih =>
    obtain ⟨ka, va⟩ := a
    by_cases hk : ka = k
    · rw [lookupPool, if_pos hk] at h
      obtain rfl : va = v := by simpa using h
      subst hk
      exact List.mem_cons_self _ _
    · rw [lookupPool, if_neg hk] at h
      exact List.mem_cons_of_mem _ (ih h)

theorem allocate_ip_hit {s : DHCPState} {mac : List Byte} {ip : IPv4}
    (h : lookupPool s.lease_pool mac = some ip) :
    allocate_ip s mac = (ip, s) := by
  unfold allocate_ip
  rw [h]

theorem allocate_ip_fresh {s : DHCPState} {mac : List Byte}
    (h : lookupPool s.lease_pool mac = none) :
    allocate_ip s mac =
      (intToIp s.next_ip,
        { s with
          lease_pool := s.lease_pool ++ [(mac, intToIp s.next_ip)]
          next_ip :=
            if ipToInt s.range_end < s.next_ip + 1 then ipToInt s.range_start
            else s.next_ip + 1 }) := by
  unfold allocate_ip
  rw [h]

/-! ## C1: sticky allocation -/

/-- C1.  Once the lease table maps a hardware address to an address,
`_allocate_ip` for that MAC returns that same address and leaves the
whole state (lease table and allocation cursor) unchanged; moreover no
later allocation, for any MAC, disturbs the entry. -/
theorem alloc_sticky (s : DHCPState) (mac : List Byte) (ip : IPv4)
    (h : lookupPool s.lease_pool mac = some ip) :
    allocate_ip s mac = (ip, s) ∧
    ∀ mac2, lookupPool (allocate_ip s mac2).2.lease_pool mac = some ip := by
  refine ⟨allocate_ip_hit h, fun mac2 => ?_⟩
  rcases hl : lookupPool s.lease_pool mac2 with _ | ip2
  · rw [allocate_ip_fresh hl]
    exact lookupPool_append_of_some h _
  · rw [allocate_ip_hit hl]
    exact h

/-- Witness for C1: re-allocating for a MAC that holds
`172.16.172.100` returns that address, changes nothing, and an
interleaved allocation for a different MAC keeps the entry intact. -/
theorem alloc_sticky_witness :
    lookupPool stickyWitnessState.lease_pool [0, 1, 2, 3, 4, 5] =
      some ⟨172, 16, 172, 100⟩ ∧
    allocate_ip stickyWitnessState [0, 1, 2, 3, 4, 5] =
      (⟨172, 16, 172, 100⟩, stickyWitnessState) ∧
    lookupPool (allocate_ip stickyWitnessState [9, 9, 9, 9, 9, 9]).2.lease_pool
      [0, 1, 2, 3, 4, 5] = some ⟨172, 16, 172, 100⟩ := by
  have h := alloc_sticky stickyWitnessState [0, 1, 2, 3, 4, 5]
    ⟨172, 16, 172, 100⟩ (by decide)
  exact ⟨by decide, h.1, h.2 [9, 9, 9, 9, 9, 9]⟩

/-! ## C2: allocation stays inside the configured range -/

/-- C2.  If the cursor is in `[start, end]` and every pooled lease came
from the range, then `_allocate_ip` returns an address from the range,
re-establishes both invariants, and — for a fresh MAC — hands out exactly
the cursor address, wrapping the cursor to `range_start` right after the
address at `range_end` is assigned. -/
theorem alloc_in_range (s : DHCPState) (mac : List Byte)
    (hcur : cursorInRange s) (hpool : poolInRange s) :
    (∃ n, ipToInt s.range_start ≤ n ∧ n ≤ ipToInt s.range_end ∧
      (allocate_ip s mac).1 = intToIp n) ∧
    cursorInRange (allocate_ip s mac).2 ∧
    poolInRange (allocate_ip s mac).2 ∧
    (lookupPool s.lease_pool mac = none →
      (allocate_ip s mac).1 = intToIp s.next_ip ∧
      (s.next_ip = ipToInt s.range_end →
        (allocate_ip s mac).2.next_ip = ipToInt s.range_start)) := by
  obtain ⟨hc1, hc2⟩ := hcur
  rcases hl : lookupPool s.lease_pool mac with _ | ip
  · rw [allocate_ip_fresh hl]
    refine ⟨⟨s.next_ip, hc1, hc2, rfl⟩, ?_, ?_, fun _ => ⟨rfl, fun he => ?_⟩⟩
    · change ipToInt s.range_start ≤
        (if ipToInt s.range_end < s.next_ip + 1 then ipToInt s.range_start
          else s.next_ip + 1) ∧
        (if ipToInt s.range_end < s.next_ip + 1 then ipToInt s.range_start
          else s.next_ip + 1) ≤ ipToInt s.range_end
      by_cases hw : ipToInt s.range_end < s.next_ip + 1
      · rw [if_pos hw]
        omega
      · rw [if_neg hw]
        omega
    · intro kv hkv
      simp only [List.mem_append, List.mem_singleton] at hkv
      rcases hkv with hkv | rfl
      · exact hpool kv hkv
      · exact ⟨s.next_ip, hc1, hc2, rfl⟩
    · change (if ipToInt s.range_end < s.next_ip + 1 then ipToInt s.range_start
        else s.next_ip + 1) = ipToInt s.range_start
      rw [if_pos (by omega)]
  · rw [allocate_ip_hit hl]
    obtain ⟨n, hn1, hn2, hn3⟩ := hpool (mac, ip) (lookupPool_mem hl)
    refine ⟨⟨n, hn1, hn2, hn3⟩, ⟨hc1, hc2⟩, hpool, fun hnone => ?_⟩
    simp at hnone

/-- Witness for C2: on an empty pool with cursor at the range end, the
allocated address is the cursor address, it lies in the range, and the
cursor wraps back to the range start. -/
theorem alloc_in_range_witness :
    cursorInRange rangeWitnessState ∧ poolInRange rangeWitnessState ∧
    (∃ n, ipToInt rangeWitnessState.range_start ≤ n ∧
      n ≤ ipToInt rangeWitnessState.range_end ∧
      (allocate_ip rangeWitnessState [7]).1 = intToIp n) ∧
    cursorInRange (allocate_ip rangeWitnessState [7]).2 ∧
    (allocate_ip rangeWitnessState [7]).2.next_ip =
      ipToInt rangeWitnessState.range_start := by
  have hcur : cursorInRange rangeWitnessState := by
    unfold cursorInRange rangeWitnessState
    refine ⟨by decide, by decide⟩
  have hpool : poolInRange rangeWitnessState := by
    intro kv hkv
    simp [rangeWitnessState] at hkv
  have h := alloc_in_range rangeWitnessState [7] hcur hpool
  exact ⟨hcur, hpool, h.1, h.2.1,
    ((h.2.2.2 (by decide)).2 (by decide))⟩

/-! ## C5: short packets and bad cookies are dropped untouched -/

/-- C5.  A datagram shorter than 240 bytes, or whose four bytes at
offset 236 are not the magic cookie, produces no reply and leaves the
lease table and cursor untouched: `_parse_dhcp_packet` returns `None`
and the loop `continue`s. -/
theorem drop_invalid (s : DHCPState) (data : List Byte)
    (h : data.length < 240 ∨ (data.drop 236).take 4 ≠ [99, 130, 83, 99]) :
    handle_packet s data = (none, s) := by
  have hparse : parse_dhcp_packet data = .ok none := by
    unfold parse_dhcp_packet
    rcases h with h | h
    · rw [if_pos h]
    · by_cases hlen : data.length < 240
      · rw [if_pos hlen]
      · rw [if_neg hlen, if_pos h]
  unfold handle_packet
  rw [hparse]

/-- Witness for C5: the empty datagram is dropped with no state
change. -/
theorem drop_invalid_witness :
    ([] : List Byte).length < 240 ∧
    handle_packet initialState [] = (none, initialState) :=
  ⟨by decide, drop_invalid initialState [] (Or.inl (by decide))⟩

/-! ## C10: the allocator can hand the same address to two MACs -/

set_option maxRecDepth 100000 in
/-- C10.  Allocation does not guarantee distinct addresses: after the
101-address pool is exhausted by 101 distinct MACs the cursor has
wrapped, and a 102nd, distinct MAC is handed `172.16.172.100` — the
very address the first MAC still holds in the lease table. -/
theorem alloc_wrap_duplicate :
    macOf 101 ≠ macOf 0 ∧
    lookupPool wrappedState.lease_pool (macOf 101) = none ∧
    lookupPool wrappedState.lease_pool (macOf 0) = some DHCP_RANGE_START ∧
    (allocate_ip wrappedState (macOf 101)).1 = DHCP_RANGE_START := by
  refine ⟨by decide, by decide, by decide, by decide⟩

/-! ## Packet-level lemmas -/

theorem exists_len4 {l : List Byte} (h : l.length = 4) :
    ∃ a b c d, l = [a, b, c, d] := by
  rcases l with _ | ⟨a, _ | ⟨b, _ | ⟨c, _ | ⟨d, _ | ⟨e, t⟩⟩⟩⟩⟩
  · simp at h
  · simp at h
  · simp at h
  · simp at h
  · exact ⟨a, b, c, d, rfl⟩
  · simp at h

theorem exists_len6 {l : List Byte} (h : l.length = 6) :
    ∃ a b c d e f, l = [a, b, c, d, e, f] := by
  rcases l with _ | ⟨a, _ | ⟨b, _ | ⟨c, _ | ⟨d, _ | ⟨e, _ | ⟨f, _ | ⟨g, t⟩⟩⟩⟩⟩⟩⟩
  · simp at h
  · simp at h
  · simp at h
  · simp at h
  · simp at h
  · simp at h
  · exact ⟨a, b, c, d, e, f, rfl⟩
  · simp at h

/-- The option loop's iteration bound is never reached: any two bounds
of at least `data.length - i` give the same result.  In particular the
loop terminates within `data.length - i` iterations, because the index
strictly increases and the loop stops at `data.length`. -/
theorem parseOptLoop_fuel {data : List Byte} :
    ∀ (f1 f2 i : Nat) (fl : OptFields), data.length - i ≤ f1 →
      data.length - i ≤ f2 →
      parseOptLoop data f1 i fl = parseOptLoop data f2 i fl := by
  intro f1
  induction f1 with
  | zero =>
    intro f2 i fl h1 h2
    have hi : ¬ i < data.length := by omega
    cases f2 with
    | zero => rfl
    | succ k =>
      rw [parseOptLoop, parseOptLoop, dif_neg hi]
  | succ f1 ih =>
    intro f2 i fl h1 h2
    cases f2 with
    | zero =>
      have hi : ¬ i < data.length := by omega
      rw [parseOptLoop, parseOptLoop, dif_neg hi]
    | succ k =>
      rw [parseOptLoop, parseOptLoop]
      by_cases hi : i < data.length
      · rw [dif_pos hi, dif_pos hi]
        dsimp only
        by_cases h255 : data.get ⟨i, hi⟩ = 255
        · rw [if_pos h255, if_pos h255]
        · rw [if_neg h255, if_neg h255]
          by_cases h0 : data.get ⟨i, hi⟩ = 0
          · rw [if_pos h0, if_pos h0]
            exact ih k (i + 1) fl (by omega) (by omega)
          · rw [if_neg h0, if_neg h0]
            cases data.get? (i + 1) with
            | none => rfl
            | some optLen =>
              dsimp only
              cases updateOptField data i (data.get ⟨i, hi⟩) optLen fl with
              | error e => rfl
              | ok f' =>
                dsimp only
                exact ih k (i + 2 + optLen) f' (by omega) (by omega)
      · rw [dif_neg hi, dif_neg hi]

/-- A successful parse implies the datagram was at least 240 bytes and
pins the header fields to their slices. -/
theorem parse_ok_some {data : List Byte} {p : ParsedPacket}
    (h : parse_dhcp_packet data = .ok (some p)) :
    240 ≤ data.length ∧ p.transaction_id = (data.drop 4).take 4 ∧
    p.client_mac = (data.drop 28).take 6 := by
  unfold parse_dhcp_packet at h
  by_cases h1 : data.length < 240
  · rw [if_pos h1] at h
    simp at h
  · rw [if_neg h1] at h
    by_cases h2 : (data.drop 236).take 4 ≠ [99, 130, 83, 99]
    · rw [if_pos h2] at h
      simp at h
    · rw [if_neg h2] at h
      cases hf : parseOptLoop data data.length 240 ⟨none, none, none, none⟩ with
      | error e =>
        rw [hf] at h
        simp at h
      | ok f =>
        rw [hf] at h
        simp only [Except.ok.injEq, Option.some.injEq] at h
        subst h
        exact ⟨by omega, rfl, rfl⟩

/-- The reply's "your address" field (offset 16) is the offered
address. -/
theorem build_yiaddr_slice (sip nm : IPv4) (tid mac : List Byte)
    (cip : IPv4) (mt : Byte) (bf : String) (htid : tid.length = 4) :
    ((build_dhcp_packet sip nm tid mac cip mt bf).drop 16).take 4 =
      ipBytes cip := by
  obtain ⟨t0, t1, t2, t3, rfl⟩ := exists_len4 htid
  rfl

/-- The reply's 128-byte boot-filename field sits at offset 108. -/
theorem build_bootfile_slice (sip nm : IPv4) (tid mac : List Byte)
    (cip : IPv4) (mt : Byte) (bf : String) (htid : tid.length = 4)
    (hmac : mac.length = 6) (hbf : (asciiBytes bf).length ≤ 127) :
    ((build_dhcp_packet sip nm tid mac cip mt bf).drop 108).take 128 =
      bootfileField bf := by
  obtain ⟨t0, t1, t2, t3, rfl⟩ := exists_len4 htid
  obtain ⟨m0, m1, m2, m3, m4, m5, rfl⟩ := exists_len6 hmac
  have h1 : (build_dhcp_packet sip nm [t0, t1, t2, t3]
      [m0, m1, m2, m3, m4, m5] cip mt bf).drop 108 =
      (bootfileField bf ++ [99, 130, 83, 99]) ++ dhcpOptions sip nm mt bf :=
    rfl
  have h2 : (bootfileField bf).length = 128 := by
    simp only [bootfileField, List.length_append, List.length_cons,
      List.length_nil, List.length_replicate]
    omega
  rw [h1, List.append_assoc]
  exact List.take_left' h2

theorem ipBytes_quadOf {l : List Byte} (h : l.length = 4) :
    ipBytes (quadOf l) = l := by
  obtain ⟨a, b, c, d, rfl⟩ := exists_len4 h
  rfl

/-- The DISCOVER branch always broadcasts an OFFER whose boot-filename
argument is the PXE-classified choice. -/
theorem handle_discover_reply (s : DHCPState) (data : List Byte)
    (p : ParsedPacket) (hp : parse_dhcp_packet data = .ok (some p))
    (hm : p.msg_type = some DHCPDISCOVER) :
    ∃ cip st, handle_packet s data =
      (some (build_dhcp_packet s.server_ip s.netmask p.transaction_id
        p.client_mac cip DHCPOFFER
        (if isPxe p then get_bootfile_for_arch p.client_arch else "")), st) := by
  unfold handle_packet
  rw [hp]
  dsimp only
  rw [if_pos hm]
  by_cases hc : (data.drop 12).take 4 ≠ [0, 0, 0, 0]
  · rw [if_pos hc]
    exact ⟨_, _, rfl⟩
  · rw [if_neg hc]
    exact ⟨_, _, rfl⟩

/-! ## C3: ProxyDHCP handling of a non-zero ciaddr -/

set_option maxRecDepth 100000 in
/-- C3 counterexample.  `c3pkt` is a REQUEST with non-zero ciaddr, yet
the handler draws a fresh address (the lease table grows) and the
reply's "your address" field is the allocated `172.16.172.100`, not the
embedded `10.0.0.5`: the ciaddr check exists only in the DISCOVER
branch. -/
theorem request_ciaddr_cex :
    (c3pkt.drop 12).take 4 ≠ [0, 0, 0, 0] ∧
    (∃ p, parse_dhcp_packet c3pkt = .ok (some p) ∧
      p.msg_type = some DHCPREQUEST) ∧
    (handle_packet initialState c3pkt).2.lease_pool ≠
      initialState.lease_pool ∧
    (handle_packet initialState c3pkt).1.map (fun r => (r.drop 16).take 4) ≠
      some ((c3pkt.drop 12).take 4) := by
  refine ⟨by decide, ⟨_, rfl, rfl⟩, by decide, by decide⟩

/-- C3 amended.  For a DISCOVER whose ciaddr is non-zero, no address is
drawn, the state is unchanged, and the OFFER's "your address" field
echoes the embedded ciaddr.  (The REQUEST branch has no such check.) -/
theorem discover_proxydhcp (s : DHCPState) (data : List Byte)
    (p : ParsedPacket) (hp : parse_dhcp_packet data = .ok (some p))
    (hm : p.msg_type = some DHCPDISCOVER)
    (hc : (data.drop 12).take 4 ≠ [0, 0, 0, 0]) :
    (handle_packet s data).2 = s ∧
    ∃ r, (handle_packet s data).1 = some r ∧
      (r.drop 16).take 4 = (data.drop 12).take 4 := by
  obtain ⟨hlen, htid, _⟩ := parse_ok_some hp
  have htid4 : p.transaction_id.length = 4 := by
    rw [htid, List.length_take, List.length_drop]
    omega
  have hciaLen : ((data.drop 12).take 4).length = 4 := by
    rw [List.length_take, List.length_drop]
    omega
  have hhandle : handle_packet s data =
      (some (build_dhcp_packet s.server_ip s.netmask p.transaction_id
        p.client_mac (quadOf ((data.drop 12).take 4)) DHCPOFFER
        (if isPxe p then get_bootfile_for_arch p.client_arch else "")), s) := by
    unfold handle_packet
    rw [hp]
    dsimp only
    rw [if_pos hm, if_pos hc]
  refine ⟨by rw [hhandle], _, by rw [hhandle], ?_⟩
  rw [build_yiaddr_slice _ _ _ _ _ _ _ htid4]
  exact ipBytes_quadOf hciaLen

set_option maxRecDepth 100000 in
/-- Witness for the amended C3 at a concrete ProxyDHCP DISCOVER. -/
theorem discover_proxydhcp_witness :
    (handle_packet initialState c3wpkt).2 = initialState ∧
    ∃ r, (handle_packet initialState c3wpkt).1 = some r ∧
      (r.drop 16).take 4 = (c3wpkt.drop 12).take 4 :=
  discover_proxydhcp initialState c3wpkt
    ⟨[0, 0, 0, 0], [170, 187, 204, 221, 238, 1], some 1, none, none, none⟩
    rfl rfl (by decide)

/-! ## C4: bootloader choice in the OFFER -/

set_option maxRecDepth 100000 in
/-- C4 counterexample.  For a DISCOVER with no architecture code and no
vendor class the claim requires the boot-filename field to hold the
legacy name `lpxelinux.0`; in fact such a client is classified non-PXE,
`bootfile = None` is replaced by the empty string, and the field is all
zeros. -/
theorem discover_bootfile_cex :
    (∃ p, parse_dhcp_packet c4pkt = .ok (some p) ∧
      p.msg_type = some DHCPDISCOVER ∧ p.vendor_class = none ∧
      p.client_arch = none) ∧
    (handle_packet initialState c4pkt).1.map (fun r => (r.drop 108).take 128) ≠
      some (bootfileField "lpxelinux.0") ∧
    (handle_packet initialState c4pkt).1.map (fun r => (r.drop 108).take 128) =
      some (List.replicate 128 0) := by
  refine ⟨⟨_, rfl, rfl, rfl, rfl⟩, by decide, by decide⟩

/-- C4 amended.  For a DISCOVER carrying vendor class containing
`PXEClient` and architecture code `0x0009`, the OFFER's boot-filename
field holds `grubx64.efi`; for a DISCOVER with no vendor class (a
non-PXE client), the boot-filename field is empty (all zero bytes),
whatever its architecture option. -/
theorem discover_bootfile (s : DHCPState) (data : List Byte)
    (p : ParsedPacket) (hp : parse_dhcp_packet data = .ok (some p))
    (hm : p.msg_type = some DHCPDISCOVER) :
    (∀ vb, p.vendor_class = some vb →
      hasSubstr pxeMarker (decodeAsciiIgnore vb) = true →
      p.client_arch = some 0x0009 →
      ∃ r, (handle_packet s data).1 = some r ∧
        (r.drop 108).take 128 = bootfileField "grubx64.efi") ∧
    (p.vendor_class = none →
      ∃ r, (handle_packet s data).1 = some r ∧
        (r.drop 108).take 128 = List.replicate 128 0) := by
  obtain ⟨hlen, htid, hmac⟩ := parse_ok_some hp
  have htid4 : p.transaction_id.length = 4 := by
    rw [htid, List.length_take, List.length_drop]
    omega
  have hmac6 : p.client_mac.length = 6 := by
    rw [hmac, List.length_take, List.length_drop]
    omega
  obtain ⟨cip, st, hh⟩ := handle_discover_reply s data p hp hm
  constructor
  · intro vb hvb hsub harch
    have hvs : vendorStrOf p = decodeAsciiIgnore vb := by
      unfold vendorStrOf
      rw [hvb]
    have hne : (decodeAsciiIgnore vb).isEmpty = false := by
      cases hd : decodeAsciiIgnore vb with
      | nil =>
        rw [hd] at hsub
        exact absurd hsub (by decide)
      | cons x xs => rfl
    have hpxe : isPxe p = true := by
      unfold isPxe
      rw [hvs, hne, hsub]
      rfl
    have hbf : (if isPxe p then get_bootfile_for_arch p.client_arch else "") =
        "grubx64.efi" := by
      rw [hpxe, if_pos rfl, harch]
      decide
    refine ⟨_, by rw [hh], ?_⟩
    rw [hbf]
    exact build_bootfile_slice _ _ _ _ _ _ _ htid4 hmac6 (by decide)
  · intro hnone
    have hvs : vendorStrOf p = [] := by
      unfold vendorStrOf
      rw [hnone]
    have hpxe : isPxe p = false := by
      unfold isPxe
      rw [hvs]
      rfl
    have hbf : (if isPxe p then get_bootfile_for_arch p.client_arch else "") =
        "" := by
      rw [hpxe]
      rfl
    refine ⟨_, by rw [hh], ?_⟩
    rw [hbf, build_bootfile_slice _ _ _ _ _ _ _ htid4 hmac6 (by decide)]
    decide

set_option maxRecDepth 100000 in
/-- Witness for the amended C4 at a concrete PXE x64 DISCOVER. -/
theorem discover_bootfile_witness :
    ∃ r, (handle_packet initialState c4wpkt).1 = some r ∧
      (r.drop 108).take 128 = bootfileField "grubx64.efi" :=
  (discover_bootfile initialState c4wpkt
      ⟨[0, 0, 0, 0], [170, 187, 204, 221, 238, 2], some 1,
        some (asciiBytes "PXEClient"), none, some 9⟩
      rfl rfl).1
    (asciiBytes "PXEClient") rfl (by decide) rfl

/-! ## C8: option parsing on truncated packets -/

set_option maxRecDepth 100000 in
/-- C8 counterexample.  `c8pkt` is 241 bytes with a valid cookie and is
truncated mid-TLV (option code 53 as the last byte, no length byte):
the parser reads `data[i + 1]` past the end of the buffer and raises
(IndexError), rather than handling the truncation without an error. -/
theorem parse_truncated_cex :
    240 ≤ c8pkt.length ∧ (c8pkt.drop 236).take 4 = [99, 130, 83, 99] ∧
    parse_dhcp_packet c8pkt = .error () := by
  exact ⟨by decide, by decide, rfl⟩

/-- C8 amended.  Option parsing always terminates
(`parseOptLoop_fuel`: the iteration bound `data.length` is never
reached), and a zero pad code advances exactly one byte; but a packet
truncated mid-TLV makes the parser raise an index error, which the
receive loop's blanket handler catches — the observable result is still
no reply and no allocator mutation. -/
theorem parse_options_behavior (s : DHCPState) (data : List Byte) :
    (∀ e, parse_dhcp_packet data = .error e →
      handle_packet s data = (none, s)) ∧
    (∀ fuel i f (h : i < data.length), data.get ⟨i, h⟩ = 0 →
      data.length - i ≤ fuel + 1 →
      parseOptLoop data (fuel + 1) i f =
        parseOptLoop data (fuel + 1) (i + 1) f) ∧
    (∀ fuel i f (h : i < data.length), data.get ⟨i, h⟩ ≠ 255 →
      data.get ⟨i, h⟩ ≠ 0 → data.get? (i + 1) = none →
      parseOptLoop data (fuel + 1) i f = .error ()) := by
  refine ⟨fun e he => ?_, fun fuel i f h h0 hfu => ?_, fun fuel i f h h255 h0 hn => ?_⟩
  · unfold handle_packet
    rw [he]
  · rw [parseOptLoop, dif_pos h]
    dsimp only
    rw [h0, if_neg (by decide), if_pos rfl]
    exact parseOptLoop_fuel fuel (fuel + 1) (i + 1) f (by omega) (by omega)
  · rw [parseOptLoop, dif_pos h]
    dsimp only
    rw [if_neg h255, if_neg h0, hn]

set_option maxRecDepth 100000 in
/-- Witness for the amended C8: the truncated `c8pkt` is dropped with no
state change, a pad byte advances the loop by one on `padPkt`, and the
loop raises on `c8pkt`'s dangling option code. -/
theorem parse_options_behavior_witness :
    handle_packet initialState c8pkt = (none, initialState) ∧
    parseOptLoop padPkt 2 240 ⟨none, none, none, none⟩ =
      parseOptLoop padPkt 2 241 ⟨none, none, none, none⟩ ∧
    parseOptLoop c8pkt 1 240 ⟨none, none, none, none⟩ = .error () := by
  refine ⟨(parse_options_behavior initialState c8pkt).1 () rfl,
    (parse_options_behavior initialState padPkt).2.1 1 240
      ⟨none, none, none, none⟩ (by decide) (by decide) (by decide),
    (parse_options_behavior initialState c8pkt).2.2 0 240
      ⟨none, none, none, none⟩ (by decide) (by decide) (by decide) (by decide)⟩

/-! ## C6: extraction leaves a clean resource state on every exit path -/

theorem exn_cleanup_clean (sc : Scenario) (hvg : sc.vg_deactivate_ok = true)
    (r : Res) : exn_cleanup sc r = cleanRes := by
  simp [exn_cleanup, hvg, cleanRes]

/-- The probe loop only ever toggles the `mounted` flag. -/
theorem mountLoop_preserves (l : List PartCand) :
    ∀ r : Res, (mountLoop l r).2.attached = r.attached ∧
      (mountLoop l r).2.lvm_active = r.lvm_active ∧
      (mountLoop l r).2.mountpoint = r.mountpoint := by
  induction l with
  | nil => exact fun r => ⟨rfl, rfl, rfl⟩
  | cons c rest ih =>
    intro r
    rw [mountLoop]
    by_cases h1 : c.ex
    · rw [if_neg (by simp [h1])]
      by_cases h2 : c.fs_swap
      · rw [if_pos h2]
        exact ih r
      · rw [if_neg h2]
        by_cases h3 : c.mount_ok
        · rw [if_neg (by simp [h3])]
          dsimp only
          by_cases h4 : c.has_boot
          · rw [if_pos h4]
            exact ⟨rfl, rfl, rfl⟩
          · rw [if_neg h4]
            exact ih _
        · rw [if_pos (by simp [h3])]
          exact ih r
    · rw [if_pos (by simp [h1])]
      exact ih r

/-- The probe loop never leaves the filesystem mounted unless it
accepted a candidate. -/
theorem mountLoop_none_unmounted (l : List PartCand) :
    ∀ r : Res, r.mounted = false → (mountLoop l r).1 = none →
      (mountLoop l r).2.mounted = false := by
  induction l with
  | nil =>
    intro r hr _
    exact hr
  | cons c rest ih =>
    intro r hr hnone
    rw [mountLoop] at hnone ⊢
    by_cases h1 : c.ex
    · rw [if_neg (by simp [h1])] at hnone ⊢
      by_cases h2 : c.fs_swap
      · rw [if_pos h2] at hnone ⊢
        exact ih r hr hnone
      · rw [if_neg h2] at hnone ⊢
        by_cases h3 : c.mount_ok
        · rw [if_neg (by simp [h3])] at hnone ⊢
          dsimp only at hnone ⊢
          by_cases h4 : c.has_boot
          · rw [if_pos h4] at hnone
            simp at hnone
          · rw [if_neg h4] at hnone ⊢
            exact ih _ rfl hnone
        · rw [if_pos (by simp [h3])] at hnone ⊢
          exact ih r hr hnone
    · rw [if_pos (by simp [h1])] at hnone ⊢
      exact ih r hr hnone

set_option maxHeartbeats 1000000 in
/-- On the success path, the final resource state is clean whenever the
best-effort volume-group deactivation takes effect. -/
theorem extractBody_ok_clean (sc : Scenario)
    (hvg : sc.vg_deactivate_ok = true) {u : Unit} {r : Res}
    (h : extractBody sc = (.ok u, r)) : r = cleanRes := by
  unfold extractBody at h
  by_cases h1 : sc.modprobe_ok
  case neg =>
    rw [if_pos (by simp [h1])] at h
    exact absurd h (by simp)
  rw [if_neg (by simp [h1])] at h
  by_cases h2 : sc.connect_ok
  case neg =>
    rw [if_pos (by simp [h2])] at h
    exact absurd h (by simp)
  rw [if_neg (by simp [h2])] at h
  dsimp only at h
  by_cases h3 : (if sc.fdisk_parts.isEmpty then sc.probe_parts.filter (·.ex)
      else sc.fdisk_parts).isEmpty
  case pos =>
    rw [if_pos h3] at h
    exact absurd h (by simp)
  rw [if_neg h3] at h
  rcases hml : mountLoop
      (sc.lvs_found ++
        (if sc.fdisk_parts.isEmpty then sc.probe_parts.filter (·.ex)
          else sc.fdisk_parts))
      ⟨true, false, !sc.lvs_found.isEmpty, true⟩
    with ⟨o, r4⟩
  rw [hml] at h
  cases o with
  | none => exact absurd h (by simp)
  | some c =>
    dsimp only at h
    by_cases h4 : sc.kernel_found
    case neg =>
      rw [if_pos (by simp [h4])] at h
      exact absurd h (by simp)
    rw [if_neg (by simp [h4])] at h
    by_cases h5 : sc.cp_kernel_ok
    case neg =>
      rw [if_pos (by simp [h5])] at h
      exact absurd h (by simp)
    rw [if_neg (by simp [h5])] at h
    by_cases h6 : sc.initrd_found
    case neg =>
      rw [if_pos (by simp [h6])] at h
      exact absurd h (by simp)
    rw [if_neg (by simp [h6])] at h
    by_cases h7 : sc.cp_initrd_ok
    case neg =>
      rw [if_pos (by simp [h7])] at h
      exact absurd h (by simp)
    rw [if_neg (by simp [h7])] at h
    by_cases h8 : sc.final_umount_ok
    case neg =>
      rw [if_pos (by simp [h8])] at h
      exact absurd h (by simp)
    rw [if_neg (by simp [h8])] at h
    by_cases h9 : sc.final_disconnect_ok
    case neg =>
      rw [if_pos (by simp [h9])] at h
      exact absurd h (by simp)
    rw [if_neg (by simp [h9])] at h
    have hpres := mountLoop_preserves
      (sc.lvs_found ++
        (if sc.fdisk_parts.isEmpty then sc.probe_parts.filter (·.ex)
          else sc.fdisk_parts))
      ⟨true, false, !sc.lvs_found.isEmpty, true⟩
    rw [hml] at hpres
    obtain ⟨hp1, hp2, hp3⟩ := hpres
    dsimp only at hp1 hp2 hp3
    simp only [Prod.mk.injEq, Except.ok.injEq] at h
    obtain ⟨-, hr⟩ := h
    subst hr
    by_cases hld : sc.lvs_found.isEmpty
    · simp [hld, cleanRes, hvg, hp2]
    · simp [hld, cleanRes, hvg, hp2]

/-- C6.  On every exit path of `extract_kernel_initrd` — success or
failure at any step — the scratch filesystem is unmounted, activated
volume groups are deactivated, the block device is detached and the
scratch mount point removed (assuming the best-effort `vgchange -an`
itself takes effect); failures run the handler's cleanup before the
exception propagates, landing in the same clean state as success. -/
theorem extract_cleanup (sc : Scenario)
    (hvg : sc.vg_deactivate_ok = true) :
    (extract_kernel_initrd sc).2 = cleanRes := by
  unfold extract_kernel_initrd
  rcases hb : extractBody sc with ⟨res, r⟩
  cases res with
  | error e =>
    dsimp only
    exact exn_cleanup_clean sc hvg r
  | ok u =>
    dsimp only
    exact extractBody_ok_clean sc hvg hb

/-- Witness for C6: extraction on an image with no kernel fails fatally
yet leaves the clean state. -/
theorem extract_cleanup_witness :
    scNoKernel.vg_deactivate_ok = true ∧
    (extract_kernel_initrd scNoKernel).1 = .error .kernelNotFound ∧
    (extract_kernel_initrd scNoKernel).2 = cleanRes :=
  ⟨rfl, rfl, extract_cleanup scNoKernel rfl⟩

/-! ## C7: which cleanup failures escalate after the copies succeed -/

/-- C7 counterexample.  In `scUmountFail` the kernel and initramfs have
both been copied, yet the failing success-path `umount` (`check=True`)
raises: the extraction call returns failure, not success. -/
theorem extract_umount_escalates_cex :
    scUmountFail.kernel_found = true ∧ scUmountFail.cp_kernel_ok = true ∧
    scUmountFail.initrd_found = true ∧ scUmountFail.cp_initrd_ok = true ∧
    extract_kernel_initrd scUmountFail =
      (.error (.cmdFailed "umount"), cleanRes) := by
  exact ⟨rfl, rfl, rfl, rfl, rfl⟩

/-- C7 amended.  Once the kernel and initramfs are copied and the
checked cleanup commands (`umount`, `qemu-nbd --disconnect`, both
`check=True`) succeed, the extraction returns success regardless of
whether the best-effort `vgchange -an` deactivation succeeds — its
failure is not escalated.  (A failing checked `umount`, by contrast,
makes the call fail: `extract_umount_escalates_cex`.) -/
theorem extract_vg_failure_not_escalated (sc : Scenario)
    (hmod : sc.modprobe_ok = true) (hcon : sc.connect_ok = true)
    (hcand : (if sc.fdisk_parts.isEmpty then sc.probe_parts.filter (·.ex)
      else sc.fdisk_parts).isEmpty = false)
    (hker : sc.kernel_found = true) (hcpk : sc.cp_kernel_ok = true)
    (hini : sc.initrd_found = true) (hcpi : sc.cp_initrd_ok = true)
    (hum : sc.final_umount_ok = true) (hdis : sc.final_disconnect_ok = true)
    (c : PartCand) (r4 : Res)
    (hml : mountLoop
      (sc.lvs_found ++
        (if sc.fdisk_parts.isEmpty then sc.probe_parts.filter (·.ex)
          else sc.fdisk_parts))
      { attached := true, mounted := false,
        lvm_active := !sc.lvs_found.isEmpty, mountpoint := true } =
      (some c, r4)) :
    (extract_kernel_initrd sc).1 = .ok () := by
  have hcand' : ¬((if sc.fdisk_parts.isEmpty then sc.probe_parts.filter (·.ex)
      else sc.fdisk_parts).isEmpty = true) := by
    rw [hcand]
    simp
  unfold extract_kernel_initrd extractBody
  rw [if_neg (by simp [hmod]), if_neg (by simp [hcon])]
  dsimp only
  rw [if_neg hcand', hml]
  dsimp only
  rw [if_neg (by simp [hker]), if_neg (by simp [hcpk]),
    if_neg (by simp [hini]), if_neg (by simp [hcpi]),
    if_neg (by simp [hum]), if_neg (by simp [hdis])]

/-- Witness for the amended C7: with an activated volume group whose
deactivation fails, extraction still returns success. -/
theorem extract_vg_failure_witness :
    scVgFail.vg_deactivate_ok = false ∧
    (extract_kernel_initrd scVgFail).1 = .ok () :=
  ⟨rfl, extract_vg_failure_not_escalated scVgFail rfl rfl (by decide)
    rfl rfl rfl rfl rfl rfl goodPart
    { attached := true, mounted := true, lvm_active := true,
      mountpoint := true } (by decide)⟩

/-! ## C9: shutdown ordering -/

/-- C9 counterexample.  When the DHCP responder's stop raises, `stop()`
has no per-step handler: the exception escapes, the HTTP server is never
shut down and the NBD export is never terminated — contradicting "each
stop step is attempted even if a prior stop step failed". -/
theorem stop_skips_after_raise_cex :
    (pxe_stop svAll ⟨false, true⟩).1 = true ∧
    (pxe_stop svAll ⟨false, true⟩).2.1.http_running = true ∧
    (pxe_stop svAll ⟨false, true⟩).2.1.nbd_running = true ∧
    (pxe_stop svAll ⟨false, true⟩).2.2 = [StopAction.stopDhcp] := by
  exact ⟨rfl, rfl, rfl, rfl⟩

/-- C9 amended.  `stop()` runs the steps in source order — stop the
Address Responder, then the hypertext server, then terminate the
block-device export — and a service that was never created is skipped
without blocking later steps; but the steps are guarded by no per-step
exception handler, so when every stop call that runs returns normally
all three are attempted, while a raising stop call skips the remaining
steps (`stop_skips_after_raise_cex`). -/
theorem pxe_stop_order (sv : Services) (sc : StopScenario)
    (h1 : sc.dhcp_stop_ok = true) (h2 : sc.http_stop_ok = true) :
    (pxe_stop sv sc).1 = false ∧
    (pxe_stop sv sc).2.2 =
      (if sv.dhcp_present then [StopAction.stopDhcp] else []) ++
        ((if sv.http_present then [StopAction.stopHttp] else []) ++
          [StopAction.killNbd]) ∧
    (pxe_stop sv sc).2.1.nbd_running = false ∧
    (sv.dhcp_present = true → (pxe_stop sv sc).2.1.dhcp_running = false) ∧
    (sv.http_present = true → (pxe_stop sv sc).2.1.http_running = false) := by
  unfold pxe_stop pxe_stop.pxe_stop_http pxe_stop.pxe_stop_nbd
  by_cases hd : sv.dhcp_present <;> by_cases hh : sv.http_present <;>
    simp [hd, hh, h1, h2]

/-- Witness for the amended C9 with all services present and no failing
stop call. -/
theorem pxe_stop_order_witness :
    (pxe_stop svAll ⟨true, true⟩).1 = false ∧
    (pxe_stop svAll ⟨true, true⟩).2.2 =
      (if svAll.dhcp_present then [StopAction.stopDhcp] else []) ++
        ((if svAll.http_present then [StopAction.stopHttp] else []) ++
          [StopAction.killNbd]) ∧
    (pxe_stop svAll ⟨true, true⟩).2.1.nbd_running = false ∧
    (svAll.dhcp_present = true →
      (pxe_stop svAll ⟨true, true⟩).2.1.dhcp_running = false) ∧
    (svAll.http_present = true →
      (pxe_stop svAll ⟨true, true⟩).2.1.http_running = false) :=
  pxe_stop_order svAll ⟨true, true⟩ rfl rfl

end JFleet
